import Mathlib

/-!
Shallow embedding of the token-loading-system backend (prepaid utility
payments, unit balance reconciliation). Money and unit quantities are
modelled as exact rationals; JavaScript number formatting
(`toFixed(2)`, `Math.round(x*10000)/10000`) is modelled by exact
decimal rounding (round half toward positive infinity, which is what
both `toFixed` and `Math.round` do on the values involved). Firebase
collections are modelled as association lists keyed by their push ids,
in insertion order; `update` on a record is partial (only the listed
fields change). All store I/O is modelled sequentially.
-/

namespace TokenLoading

/-! ### JavaScript numeric and truthiness helpers -/

/-- `x.toFixed(2)` then `parseFloat`: round to 2 decimal places,
half toward positive infinity. -/
def toFixed2 (x : ℚ) : ℚ := (round (100 * x) : ℤ) / 100

/-- `Math.round(x * 10000) / 10000` from meterService's `round4`. -/
def round4 (x : ℚ) : ℚ := (round (10000 * x) : ℤ) / 10000

/-- Truncation toward zero, as JavaScript division underlying `%`. -/
def jsTrunc (x : ℚ) : ℤ := if 0 ≤ x then ⌊x⌋ else ⌈x⌉

/-- JavaScript remainder `a % b` (sign follows the dividend). -/
def jsMod (a b : ℚ) : ℚ := a - b * (jsTrunc (a / b) : ℚ)

/-- JavaScript truthiness of an optional number: `0` and absent are falsy. -/
def numTruthy : Option ℚ → Bool
  | none => false
  | some x => decide (x ≠ 0)

/-- JavaScript truthiness of an optional string: `""` and absent are falsy. -/
def strTruthy : Option String → Bool
  | none => false
  | some s => !(s == "")

/-- `a || b` on optional numbers: keep `a` when truthy, else fall back to `b`. -/
def jsOrN (a b : Option ℚ) : Option ℚ := if numTruthy a then a else b

/-- `a || b` on optional strings. -/
def jsOrS (a b : Option String) : Option String := if strTruthy a then a else b

/-- `a || d` with a numeric literal default. -/
def jsNumD (a : Option ℚ) (d : ℚ) : ℚ :=
  match a with
  | some x => if x = 0 then d else x
  | none => d

/-- `a || d` with a string literal default. -/
def jsStrD (a : Option String) (d : String) : String :=
  match a with
  | some s => if s = "" then d else s
  | none => d

/-- `a || null`: truthy value kept, otherwise `null`. -/
def jsOrNull (a : Option String) : Option String := if strTruthy a then a else none

/-! ### Data model -/

/-- A Daraja callback payload: every field name the extraction in
`saveCallbackTransaction` probes for, each possibly absent. -/
structure CallbackData where
  ResultCode : Option ℚ := none
  resultCode : Option ℚ := none
  ResultDesc : Option String := none
  resultDesc : Option String := none
  MpesaReceiptNumber : Option String := none
  mpesaReceiptNumber : Option String := none
  TransactionID : Option String := none
  Amount : Option ℚ := none
  amount : Option ℚ := none
  TransAmount : Option ℚ := none
  TransactionDate : Option String := none
  transactionDate : Option String := none
  BillRefNumber : Option String := none
  billRefNumber : Option String := none
  AccountReference : Option String := none
  PhoneNumber : Option String := none
  phoneNumber : Option String := none
  MSISDN : Option String := none
  OriginatorCoversationID : Option String := none
  originatorCoversationID : Option String := none
deriving DecidableEq, Repr

/-- A record under `transactions/`; fields written by any of the three
writers (`createTransactionForMeter`, `saveCallbackTransaction`,
meterService `processPayment`), absent fields as `none`. -/
structure Transaction where
  transaction_id : Option String := none
  user_id : String
  meter_no : String
  amount : ℚ
  units : Option ℚ := none
  remainder : Option ℚ := none
  status : String
  timestamp : String := ""
  reference : Option String := none
  mpesa_receipt : Option String := none
  phone_number : Option String := none
  result_code : Option ℚ := none
  result_desc : Option String := none
  raw_callback : Option CallbackData := none
deriving DecidableEq, Repr

/-- A record under `unit_consumption/` written by the consumption
simulator's `recordUnitConsumption`. -/
structure ConsumptionRecord where
  consumption_id : Option String := none
  user_id : String
  units_consumed : ℚ
  units_before : ℚ
  units_after : ℚ
  consumption_rate : Option ℚ := none
  timestamp : String := ""
  type : Option String := none
deriving DecidableEq, Repr

/-- A record under `users/`. -/
structure User where
  name : String := ""
  email : String := ""
  meter_no : String
  phone_number : Option String := none
  balance : Option ℚ := none
  current_units : Option ℚ := none
  latest_transaction_id : Option String := none
  last_payment_timestamp : Option String := none
  last_payment_amount : Option ℚ := none
  last_units_purchased : Option ℚ := none
  last_consumption_timestamp : Option String := none
  last_consumption_amount : Option ℚ := none
deriving DecidableEq, Repr

/-- The Firebase realtime database: association lists keyed by push id,
in key (= insertion) order. -/
structure DB where
  users : List (String × User) := []
  transactions : List (String × Transaction) := []
  consumption : List (String × ConsumptionRecord) := []
deriving DecidableEq, Repr

/-- Firebase `ref(path/<k>).update(f)`: partially modify every entry
whose key is `k` (keys are unique in a real store). -/
def updateEntry {α : Type} (l : List (String × α)) (k : String) (f : α → α) :
    List (String × α) :=
  l.map (fun p => if p.1 == k then (p.1, f p.2) else p)

/-! ### Unit converter (transactions module) -/

/-- `calculateUnits(amount)`: `parseFloat((parseFloat(amount) / 25).toFixed(2))`. -/
def calculateUnits (amount : ℚ) : ℚ := toFixed2 (amount / 25)

/-! ### Queries (transactions module) -/

/-- `findUserIdByMeter`: first user whose `meter_no` equals the argument. -/
def findUserIdByMeter (db : DB) (meterNo : String) : Option String :=
  (db.users.find? (fun p => p.2.meter_no == meterNo)).map (fun p => p.1)

/-- `transactionExists(mpesaReceiptNumber)`: falsy receipt gives `false`,
otherwise a query for an equal `mpesa_receipt` child. -/
def transactionExists (db : DB) (receipt : Option String) : Bool :=
  if !(strTruthy receipt) then false
  else db.transactions.any (fun p => p.2.mpesa_receipt == receipt)

/-- `findTransactionByReference(reference)`: falsy reference gives `null`,
otherwise the first transaction whose `reference` child is equal. -/
def findTransactionByReference (db : DB) (reference : Option String) :
    Option (String × Transaction) :=
  if !(strTruthy reference) then none
  else db.transactions.find? (fun p => p.2.reference == reference)

/-! ### Balance calculator -/

/-- Purchased-units accumulation shared verbatim by
`transactions.calculateAvailableUnits` and
`UnitConsumptionService.calculateAvailableUnits`: over the user's
transactions, add `parseFloat(transaction.units || 0)` whenever
`status === 'SUCCESS' || status === 'completed'`. -/
def totalPurchasedUnits (db : DB) (userId : String) : ℚ :=
  (db.transactions.filter (fun p => p.2.user_id == userId)).foldl
    (fun acc p =>
      if p.2.status == "SUCCESS" || p.2.status == "completed" then
        acc + p.2.units.getD 0
      else acc) 0

/-- Consumed-units accumulation shared by the same two functions:
add `parseFloat(consumption.units_consumed || 0)` over the user's
consumption records. -/
def totalConsumedUnits (db : DB) (userId : String) : ℚ :=
  (db.consumption.filter (fun p => p.2.user_id == userId)).foldl
    (fun acc p => acc + p.2.units_consumed) 0

/-- `transactions.calculateAvailableUnits(userId)`:
`parseFloat(Math.max(0, totalPurchasedUnits - totalConsumedUnits).toFixed(2))`. -/
def calculateAvailableUnits (db : DB) (userId : String) : ℚ :=
  toFixed2 (max 0 (totalPurchasedUnits db userId - totalConsumedUnits db userId))

/-- `UnitConsumptionService.calculateAvailableUnits(userId)`:
`Math.max(0, totalPurchasedUnits - totalConsumedUnits)` (no rounding). -/
def svcCalculateAvailableUnits (db : DB) (userId : String) : ℚ :=
  max 0 (totalPurchasedUnits db userId - totalConsumedUnits db userId)

/-! ### Transaction recorder -/

/-- Result object returned by `saveCallbackTransaction`. -/
structure CallbackResult where
  success : Bool
  duplicate : Bool
  message : String
  transaction_id : Option String
  status : Option String := none
deriving DecidableEq, Repr

/-- Field extraction `ResultCode || resultCode || 1` (JS `||`,
so a numeric `0` falls through to the default `1`). -/
def resultCodeOf (cd : CallbackData) : ℚ := jsNumD (jsOrN cd.ResultCode cd.resultCode) 1

/-- Field extraction `ResultDesc || resultDesc || 'Unknown result'`. -/
def resultDescOf (cd : CallbackData) : String :=
  jsStrD (jsOrS cd.ResultDesc cd.resultDesc) "Unknown result"

/-- Field extraction
`MpesaReceiptNumber || mpesaReceiptNumber || TransactionID`. -/
def receiptOf (cd : CallbackData) : Option String :=
  jsOrS cd.MpesaReceiptNumber (jsOrS cd.mpesaReceiptNumber cd.TransactionID)

/-- Field extraction `parseFloat(Amount || amount || TransAmount || 0)`. -/
def amountOf (cd : CallbackData) : ℚ :=
  jsNumD (jsOrN cd.Amount (jsOrN cd.amount cd.TransAmount)) 0

/-- Field extraction
`BillRefNumber || billRefNumber || AccountReference`. -/
def billRefOf (cd : CallbackData) : Option String :=
  jsOrS cd.BillRefNumber (jsOrS cd.billRefNumber cd.AccountReference)

/-- Field extraction `PhoneNumber || phoneNumber || MSISDN`. -/
def phoneOf (cd : CallbackData) : Option String :=
  jsOrS cd.PhoneNumber (jsOrS cd.phoneNumber cd.MSISDN)

/-- Field extraction
`OriginatorCoversationID || originatorCoversationID`. -/
def conversationIdOf (cd : CallbackData) : Option String :=
  jsOrS cd.OriginatorCoversationID cd.originatorCoversationID

/-- Substring of an ASCII string by character positions, as JS
`s.substring(a, b)`. -/
def jsSubstring (s : String) (a b : Nat) : String :=
  String.mk ((s.toList.drop a).take (b - a))

/-- Timestamp normalization in `saveCallbackTransaction`: a 14-character
`YYYYMMDDHHMMSS` gateway date is rearranged into ISO-8601 UTC; any
other string is handed to `new Date(...).toISOString()`, which we
abstract as the string itself (no claim inspects that branch's value),
with the current time as the fallback already substituted upstream. -/
def formatCallbackTimestamp (transactionDate : String) : String :=
  if transactionDate.length == 14 then
    jsSubstring transactionDate 0 4 ++ "-" ++ jsSubstring transactionDate 4 6 ++ "-" ++
      jsSubstring transactionDate 6 8 ++ "T" ++ jsSubstring transactionDate 8 10 ++ ":" ++
      jsSubstring transactionDate 10 12 ++ ":" ++ jsSubstring transactionDate 12 14 ++ ".000Z"
  else transactionDate

/-- The shared tail of both writers: on final status `SUCCESS`, update
the user's `latest_transaction_id` and last-payment metadata, then
recompute `calculateAvailableUnits` and persist it as `balance`. -/
def applySuccessUserUpdate (db : DB) (userId transactionId ts : String) (amount : ℚ) : DB :=
  let dbA : DB :=
    { db with users := updateEntry db.users userId (fun u =>
        { u with latest_transaction_id := some transactionId,
                 last_payment_timestamp := some ts,
                 last_payment_amount := some amount }) }
  let availableUnits := calculateAvailableUnits dbA userId
  { dbA with users := updateEntry dbA.users userId (fun u => { u with balance := some availableUnits }) }

/-- `saveCallbackTransaction(callbackData)`. `freshId` is the push key a
newly created transaction would receive and `now` the current ISO time.
Thrown errors (missing bill reference, unknown meter) are caught by the
function's own `catch` and turned into a `success: false` result. -/
def saveCallbackTransaction (db : DB) (cd : CallbackData) (freshId now : String) :
    CallbackResult × DB :=
  let resultCode := resultCodeOf cd
  let resultDesc := resultDescOf cd
  let mpesaReceiptNumber := receiptOf cd
  let amount := amountOf cd
  let transactionDate := jsStrD (jsOrS cd.TransactionDate cd.transactionDate) now
  let billRefNumber := billRefOf cd
  let phoneNumber := phoneOf cd
  if !(strTruthy billRefNumber) then
    ({ success := false, duplicate := false,
       message := "BillRefNumber (meter_no) is required but not found in callback",
       transaction_id := none }, db)
  else if strTruthy mpesaReceiptNumber && transactionExists db mpesaReceiptNumber then
    ({ success := true, duplicate := true, message := "Transaction already processed",
       transaction_id := none }, db)
  else
    let conversationId := conversationIdOf cd
    let existingTransaction := findTransactionByReference db conversationId
    match findUserIdByMeter db (billRefNumber.getD "") with
    | none =>
      ({ success := false, duplicate := false,
         message := "No user found with meter_no: " ++ billRefNumber.getD "",
         transaction_id := none }, db)
    | some userId =>
      let status := if resultCode = 0 then "SUCCESS" else "FAILED"
      let formattedTimestamp := formatCallbackTimestamp transactionDate
      let idDb : String × DB :=
        match existingTransaction with
        | some (tid, _) =>
          (tid, { db with transactions := updateEntry db.transactions tid (fun t =>
              { t with status := status,
                       mpesa_receipt := jsOrNull mpesaReceiptNumber,
                       phone_number := jsOrNull phoneNumber,
                       result_code := some resultCode,
                       result_desc := some resultDesc,
                       timestamp := formattedTimestamp,
                       raw_callback := some cd }) })
        | none =>
          let t : Transaction :=
            { transaction_id := some freshId, user_id := userId,
              meter_no := billRefNumber.getD "", amount := amount, status := status,
              mpesa_receipt := jsOrNull mpesaReceiptNumber,
              phone_number := jsOrNull phoneNumber,
              result_code := some resultCode, result_desc := some resultDesc,
              timestamp := formattedTimestamp, raw_callback := some cd }
          (freshId, { db with transactions := db.transactions ++ [(freshId, t)] })
      let db2 :=
        if status == "SUCCESS" then
          applySuccessUserUpdate idDb.2 userId idDb.1 formattedTimestamp amount
        else idDb.2
      ({ success := true, duplicate := false,
         message := "Transaction " ++ status.toLower ++ " processed successfully",
         transaction_id := some idDb.1, status := some status }, db2)

/-- `createTransactionForMeter(meterNo, amount, status, reference)`;
`none` models the thrown no-user-for-meter error. -/
def createTransactionForMeter (db : DB) (meterNo : String) (amount : ℚ)
    (status : String) (reference : Option String) (freshId now : String) :
    Option (Transaction × DB) :=
  match findUserIdByMeter db meterNo with
  | none => none
  | some userId =>
    let units := calculateUnits amount
    let remainder := jsMod amount 25
    let t : Transaction :=
      { transaction_id := some freshId, user_id := userId, meter_no := meterNo,
        amount := amount, units := some units, remainder := some remainder,
        status := status, timestamp := now, reference := reference }
    let db1 : DB := { db with transactions := db.transactions ++ [(freshId, t)] }
    let db2 :=
      if status == "SUCCESS" then
        let dbA : DB :=
          { db1 with users := updateEntry db1.users userId (fun u =>
              { u with latest_transaction_id := some freshId,
                       last_payment_timestamp := some now,
                       last_payment_amount := some amount,
                       last_units_purchased := some units }) }
        let availableUnits := calculateAvailableUnits dbA userId
        { dbA with users := updateEntry dbA.users userId (fun u =>
            { u with balance := some availableUnits }) }
      else db1
    some (t, db2)

/-! ### Consumption simulator -/

/-- `consumptionRate` of `UnitConsumptionService`. -/
def consumptionRate : ℚ := 1 / 10

/-- `consumeUnitsForUser(userId, userData)` followed by its
`recordUnitConsumption` write: skip when no units are available,
otherwise consume `min(rate, available)`, append the consumption
record (2-decimal formatted fields) and cache the user's
`current_units`. -/
def consumeUnitsForUser (db : DB) (userId freshId ts : String) : DB :=
  let availableUnits := svcCalculateAvailableUnits db userId
  if availableUnits ≤ 0 then db
  else
    let unitsToConsume := min consumptionRate availableUnits
    let newAvailableUnits := max 0 (availableUnits - unitsToConsume)
    let record : ConsumptionRecord :=
      { consumption_id := some freshId, user_id := userId,
        units_consumed := toFixed2 unitsToConsume,
        units_before := toFixed2 availableUnits,
        units_after := toFixed2 newAvailableUnits,
        consumption_rate := some consumptionRate,
        timestamp := ts, type := some "automatic_consumption" }
    { db with
        consumption := db.consumption ++ [(freshId, record)],
        users := updateEntry db.users userId (fun u =>
          { u with current_units := some (toFixed2 newAvailableUnits),
                   last_consumption_timestamp := some ts,
                   last_consumption_amount := some (toFixed2 unitsToConsume) }) }

/-! ### Device-driven meter service (services/meterService.js) -/

/-- Default `UNITS_PER_KES` conversion ratio (`'0.05'`). -/
def UNITS_PER_KES : ℚ := 1 / 20

/-- The consumption log entry appended by meterService `consumeUnits`. -/
structure MeterConsumeLog where
  user_id : Option String
  meter_no : String
  units_before : ℚ
  units_consumed : ℚ
  units_after : ℚ
  timestamp : String
deriving DecidableEq, Repr

/-- meterService `consumeUnits(meterNo, units)`, acting on the meter's
previous balance (read just before the atomic transaction): the new
persisted balance and the appended `unit_consumption` log entry. -/
def consumeUnits (prevBalance : ℚ) (userId : Option String) (meterNo : String)
    (units : ℚ) (ts : String) : ℚ × MeterConsumeLog :=
  let newBalance := max 0 (round4 (prevBalance - units))
  (newBalance,
   { user_id := userId, meter_no := meterNo, units_before := prevBalance,
     units_consumed := units, units_after := newBalance, timestamp := ts })

/-- meterService `processPayment` units computation:
`round4(amount * UNITS_PER_KES)` stored on a `SUCCESS` transaction. -/
def processPaymentUnits (amount : ℚ) : ℚ := round4 (amount * UNITS_PER_KES)

/-! ### Specification-side definitions (for refinement comparison) -/

/-- The spec's rounding to two decimal places, written from its own
words (nearest multiple of `1/100`, halves up), independently of the
source's `toFixed` formulation. -/
def spec_round2 (x : ℚ) : ℚ := (⌊x * 100 + 1 / 2⌋ : ℤ) / 100

/-- The spec's `amount_to_units(A) = round(A / rate, 2)` with rate 25. -/
def spec_amount_to_units (a : ℚ) : ℚ := spec_round2 (a / 25)

/-- Sum of unit quantities of the user's transactions whose status is
the literal `SUCCESS` or the legacy literal `completed`, written in the
spec's sum-over-set style. -/
def spec_sumSuccessUnits (db : DB) (userId : String) : ℚ :=
  ((db.transactions.filter (fun p =>
      p.2.user_id == userId && (p.2.status == "SUCCESS" || p.2.status == "completed"))).map
    (fun p => p.2.units.getD 0)).sum

/-- Sum of `units_consumed` over the user's consumption records, in the
spec's sum-over-set style. -/
def spec_sumConsumedUnits (db : DB) (userId : String) : ℚ :=
  ((db.consumption.filter (fun p => p.2.user_id == userId)).map
    (fun p => p.2.units_consumed)).sum

/-- Character-wise lowercasing (the observable behaviour of
`String.toLower` on the ASCII statuses at issue). -/
def spec_toLower (s : String) : String := String.mk (s.data.map Char.toLower)

/-- The claim's case-insensitive status tolerance: a status counts when
it equals `success` or `completed` after lowercasing. -/
def spec_statusCountsCI (s : String) : Bool :=
  spec_toLower s == "success" || spec_toLower s == "completed"

/-- Available units as the claim for the balance calculator words it:
case-insensitive status matching, minus consumption, clamped at zero,
rounded to 2 decimal places. -/
def spec_availableUnitsCI (db : DB) (userId : String) : ℚ :=
  toFixed2 (max 0
    (((db.transactions.filter (fun p =>
        p.2.user_id == userId && spec_statusCountsCI p.2.status)).map
      (fun p => p.2.units.getD 0)).sum - spec_sumConsumedUnits db userId))

/-- Number of persisted transactions carrying a given receipt number. -/
def receiptCount (db : DB) (r : Option String) : Nat :=
  db.transactions.countP (fun p => p.2.mpesa_receipt == r)

/-! ### Arithmetic lemmas about the rounding helpers -/

theorem round_mono_q {x y : ℚ} (h : x ≤ y) : round x ≤ round y := by
  rw [round_eq, round_eq]
  exact Int.floor_mono (by linarith)

theorem toFixed2_nonneg {x : ℚ} (h : 0 ≤ x) : 0 ≤ toFixed2 x := by
  unfold toFixed2
  have h1 : (0 : ℤ) ≤ round (100 * x) := by
    have := round_mono_q (show (0 : ℚ) ≤ 100 * x by linarith)
    simpa using this
  have h2 : (0 : ℚ) ≤ ((round (100 * x) : ℤ) : ℚ) := by exact_mod_cast h1
  exact div_nonneg h2 (by norm_num)

theorem toFixed2_mono {x y : ℚ} (h : x ≤ y) : toFixed2 x ≤ toFixed2 y := by
  unfold toFixed2
  have h1 : round (100 * x) ≤ round (100 * y) := round_mono_q (by linarith)
  have h2 : ((round (100 * x) : ℤ) : ℚ) ≤ ((round (100 * y) : ℤ) : ℚ) := by exact_mod_cast h1
  linarith

theorem toFixed2_sub_rate (x : ℚ) : toFixed2 (x - 1 / 10) = toFixed2 x - 1 / 10 := by
  unfold toFixed2
  have h : 100 * (x - 1 / 10) = 100 * x - ((10 : ℤ) : ℚ) := by push_cast; ring
  rw [h, round_sub_int]
  push_cast
  ring

theorem toFixed2_eq_spec_round2 (x : ℚ) : toFixed2 x = spec_round2 x := by
  unfold toFixed2 spec_round2
  rw [round_eq]
  ring_nf

/-! ### List lemmas -/

theorem foldl_add_map {α : Type} (l : List α) (f : α → ℚ) (c : ℚ) :
    l.foldl (fun acc x => acc + f x) c = c + (l.map f).sum := by
  induction l generalizing c with
  | nil => simp
  | cons a l ih => simp [ih, add_assoc]

theorem foldl_filter_ite {α : Type} (l : List α) (P Q : α → Bool) (f : α → ℚ) (c : ℚ) :
    (l.filter P).foldl (fun acc x => if Q x then acc + f x else acc) c
      = c + ((l.filter (fun x => P x && Q x)).map f).sum := by
  induction l generalizing c with
  | nil => simp
  | cons a l ih =>
    by_cases hP : P a
    · by_cases hQ : Q a
      · simp [List.filter_cons, hP, hQ, ih, add_assoc]
      · simp [List.filter_cons, hP, hQ, ih]
    · simp [List.filter_cons, hP, ih]

theorem updateEntry_map_fst {α : Type} (l : List (String × α)) (k : String) (f : α → α) :
    (updateEntry l k f).map (fun p => p.1) = l.map (fun p => p.1) := by
  unfold updateEntry
  rw [List.map_map]
  apply List.map_congr_left
  intro p _
  simp only [Function.comp]
  split <;> rfl

theorem updateEntry_length {α : Type} (l : List (String × α)) (k : String) (f : α → α) :
    (updateEntry l k f).length = l.length := by
  unfold updateEntry
  simp

theorem applySuccessUserUpdate_transactions (db : DB) (userId transactionId ts : String)
    (amount : ℚ) :
    (applySuccessUserUpdate db userId transactionId ts amount).transactions =
      db.transactions := rfl

theorem updateEntry_eq_self {α : Type} (l : List (String × α)) (k : String) (f : α → α)
    (h : ∀ p ∈ l, (p.1 == k) = false) : updateEntry l k f = l := by
  unfold updateEntry
  have hc : ∀ p ∈ l, (if p.1 == k then (p.1, f p.2) else p) = id p := by
    intro p hp
    rw [h p hp]
    simp
  rw [List.map_congr_left hc, List.map_id]

theorem countP_updateEntry_zero (l : List (String × Transaction)) (k : String)
    (f : Transaction → Transaction) (q : String × Transaction → Bool)
    (hall : ∀ p ∈ l, q p = false) (hno : ∀ p ∈ l, (p.1 == k) = false) :
    (updateEntry l k f).countP q = 0 := by
  rw [updateEntry_eq_self l k f hno]
  exact List.countP_eq_zero.mpr (by intro p hp; simp [hall p hp])

theorem countP_updateEntry_one (k : String) (f : Transaction → Transaction)
    (q : String × Transaction → Bool) (hmod : ∀ x : Transaction, q (k, f x) = true) :
    ∀ l : List (String × Transaction), (∀ p ∈ l, q p = false) →
      ((l.map (fun p => p.1)).count k) = 1 → (updateEntry l k f).countP q = 1 := by
  intro l
  induction l with
  | nil => intro _ hkey; simp at hkey
  | cons a l ih =>
    intro hall hkey
    by_cases hak : a.1 == k
    · have hak2 : a.1 = k := by simpa using hak
      have hcount : (l.map (fun p => p.1)).count k = 0 := by
        rw [List.map_cons, List.count_cons] at hkey
        simp [hak2] at hkey
        omega
      have hno : ∀ p ∈ l, (p.1 == k) = false := by
        intro p hp
        have hk : k ∉ l.map (fun p => p.1) := List.count_eq_zero.mp hcount
        by_contra hcon
        have hpk : p.1 = k := by simpa using hcon
        exact hk (hpk ▸ List.mem_map_of_mem (fun p => p.1) hp)
      unfold updateEntry
      simp only [List.map_cons, List.countP_cons]
      rw [if_pos hak]
      have hq : q (a.1, f a.2) = true := by rw [hak2]; exact hmod a.2
      have hz : (updateEntry l k f).countP q = 0 :=
        countP_updateEntry_zero l k f q (fun p hp => hall p (List.mem_cons_of_mem a hp)) hno
      unfold updateEntry at hz
      rw [hz, hq]
      simp
    · have hq : q a = false := hall a (List.mem_cons_self a l)
      have hne : ¬ (a.1 = k) := by simpa using hak
      have hkey2 : (l.map (fun p => p.1)).count k = 1 := by
        rw [List.map_cons, List.count_cons] at hkey
        simp [hne] at hkey
        exact hkey
      unfold updateEntry
      simp only [List.map_cons, List.countP_cons]
      rw [if_neg hak]
      have h1 : (updateEntry l k f).countP q = 1 :=
        ih (fun p hp => hall p (List.mem_cons_of_mem a hp)) hkey2
      unfold updateEntry at h1
      rw [h1, hq]
      simp

theorem totalPurchasedUnits_eq_spec (db : DB) (userId : String) :
    totalPurchasedUnits db userId = spec_sumSuccessUnits db userId := by
  unfold totalPurchasedUnits spec_sumSuccessUnits
  rw [foldl_filter_ite db.transactions (fun p => p.2.user_id == userId)
    (fun p => p.2.status == "SUCCESS" || p.2.status == "completed")
    (fun p => p.2.units.getD 0) 0]
  simp

theorem totalConsumedUnits_eq_spec (db : DB) (userId : String) :
    totalConsumedUnits db userId = spec_sumConsumedUnits db userId := by
  unfold totalConsumedUnits spec_sumConsumedUnits
  rw [foldl_add_map (db.consumption.filter (fun p => p.2.user_id == userId))
    (fun p => p.2.units_consumed) 0]
  simp

/-! ### Claim C1 -/

/-- The test user record of `create-test-user.js`. -/
def c1User : User := { name := "Test User", email := "demo@example.com", meter_no := "12345678" }

def c1Db : DB := { users := [("u1", c1User)] }

/-- The sample "successful payment" callback payload of `test-callback.js`. -/
def c1Payload : CallbackData :=
  { ResultCode := some 0,
    ResultDesc := some "The service request is processed successfully.",
    OriginatorCoversationID := some "2faf-403f-8dd5-e16e87cf43cf20027",
    MpesaReceiptNumber := some "ABC123456789",
    Amount := some 800,
    TransactionDate := some "20241228160000",
    BillRefNumber := some "12345678",
    PhoneNumber := some "254708374149" }

/-- C1: the claim says a payload whose `ResultCode` equals 0 yields a
transaction with status SUCCESS. The code extracts the result code with
`ResultCode || resultCode || 1`, so a numeric 0 is discarded as falsy
and the derived status is FAILED for every payload — in particular the
repository's own sample successful-payment callback is recorded FAILED. -/
theorem c1_zero_result_code_recorded_as_failed :
    c1Payload.ResultCode = some 0 ∧
    (∀ cd : CallbackData, (if resultCodeOf cd = 0 then "SUCCESS" else "FAILED") = "FAILED") ∧
    (saveCallbackTransaction c1Db c1Payload "t1" "2024-12-28T16:05:00.000Z").1.status =
      some "FAILED" ∧
    ((saveCallbackTransaction c1Db c1Payload "t1" "2024-12-28T16:05:00.000Z").2.transactions.map
      (fun p => p.2.status)) = ["FAILED"] := by
  refine ⟨rfl, ?_, by decide, by decide⟩
  intro cd
  have hne : resultCodeOf cd ≠ 0 := by
    unfold resultCodeOf
    cases h : jsOrN cd.ResultCode cd.resultCode with
    | none => simp [jsNumD]
    | some x =>
      by_cases hx : x = 0 <;> simp [jsNumD, hx]
  rw [if_neg hne]

/-! ### Claim C2 -/

def c2Db : DB := { users := [("u2", { meter_no := "M2" })] }

def c2Payload : CallbackData :=
  { ResultCode := some 0, MpesaReceiptNumber := some "R1", Amount := some 50,
    BillRefNumber := some "M2" }

/-- Counterexample to C2: processing the same receipt-"R1" payload
twice, the second call is flagged as a duplicate but returns
`transaction_id: null`, not the first call's transaction id. -/
theorem c2_counterexample_duplicate_returns_null_id :
    (saveCallbackTransaction c2Db c2Payload "k1" "n1").1.transaction_id = some "k1" ∧
    (saveCallbackTransaction (saveCallbackTransaction c2Db c2Payload "k1" "n1").2
      c2Payload "k2" "n2").1.duplicate = true ∧
    (saveCallbackTransaction (saveCallbackTransaction c2Db c2Payload "k1" "n1").2
      c2Payload "k2" "n2").1.transaction_id = none ∧
    decide ((saveCallbackTransaction (saveCallbackTransaction c2Db c2Payload "k1" "n1").2
        c2Payload "k2" "n2").1.transaction_id =
      (saveCallbackTransaction c2Db c2Payload "k1" "n1").1.transaction_id) = false := by
  decide

/-- C2 (amended): when a callback whose receipt number is not yet
persisted is processed and then the same payload is delivered again,
exactly one transaction with that receipt exists after either call, the
second call reports success-with-duplicate, creates and mutates nothing
— and its result carries `transaction_id: null`, not the first call's
transaction id. -/
theorem c2_amended_idempotent_with_null_duplicate_id (db : DB) (cd : CallbackData)
    (k1 k2 n1 n2 : String)
    (hnodup : (db.transactions.map (fun p => p.1)).Nodup)
    (hr : strTruthy (receiptOf cd) = true)
    (hex : transactionExists db (receiptOf cd) = false)
    (hbill : strTruthy (billRefOf cd) = true)
    (huser : (findUserIdByMeter db ((billRefOf cd).getD "")).isSome = true) :
    (saveCallbackTransaction db cd k1 n1).1.success = true ∧
    (saveCallbackTransaction db cd k1 n1).1.duplicate = false ∧
    receiptCount (saveCallbackTransaction db cd k1 n1).2 (receiptOf cd) = 1 ∧
    saveCallbackTransaction (saveCallbackTransaction db cd k1 n1).2 cd k2 n2 =
      ({ success := true, duplicate := true, message := "Transaction already processed",
         transaction_id := none, status := none }, (saveCallbackTransaction db cd k1 n1).2) := by
  obtain ⟨uid, hu⟩ := Option.isSome_iff_exists.mp huser
  have hall : ∀ p ∈ db.transactions, (p.2.mpesa_receipt == receiptOf cd) = false := by
    unfold transactionExists at hex
    rw [hr] at hex
    simp only [Bool.not_true, Bool.false_eq_true, if_false] at hex
    intro p hp
    have := List.any_eq_false.mp hex p hp
    simpa using this
  have hq1 : jsOrNull (receiptOf cd) = receiptOf cd := by
    unfold jsOrNull
    rw [hr]
    rfl
  have hres1 : (saveCallbackTransaction db cd k1 n1).1.success = true ∧
      (saveCallbackTransaction db cd k1 n1).1.duplicate = false := by
    unfold saveCallbackTransaction
    simp only [hr, hex, hbill, hu, Bool.and_false, Bool.false_eq_true, if_false, Bool.not_true]
    cases hm : findTransactionByReference db (conversationIdOf cd) with
    | none =>
      by_cases hs : ((if resultCodeOf cd = 0 then "SUCCESS" else "FAILED") == "SUCCESS") <;>
        simp [hs]
    | some pr =>
      by_cases hs : ((if resultCodeOf cd = 0 then "SUCCESS" else "FAILED") == "SUCCESS") <;>
        simp [hs]
  have hcount : receiptCount (saveCallbackTransaction db cd k1 n1).2 (receiptOf cd) = 1 := by
    unfold receiptCount
    cases hm : findTransactionByReference db (conversationIdOf cd) with
    | none =>
      have htr : (saveCallbackTransaction db cd k1 n1).2.transactions =
          db.transactions ++ [(k1,
            { transaction_id := some k1, user_id := uid,
              meter_no := (billRefOf cd).getD "", amount := amountOf cd,
              status := if resultCodeOf cd = 0 then "SUCCESS" else "FAILED",
              mpesa_receipt := jsOrNull (receiptOf cd),
              phone_number := jsOrNull (phoneOf cd),
              result_code := some (resultCodeOf cd), result_desc := some (resultDescOf cd),
              timestamp := formatCallbackTimestamp
                (jsStrD (jsOrS cd.TransactionDate cd.transactionDate) n1),
              raw_callback := some cd })] := by
        unfold saveCallbackTransaction
        simp only [hr, hex, hbill, hu, hm, Bool.and_false, Bool.false_eq_true, if_false,
          Bool.not_true]
        by_cases hs : ((if resultCodeOf cd = 0 then "SUCCESS" else "FAILED") == "SUCCESS") <;>
          simp [hs, applySuccessUserUpdate_transactions]
      rw [htr, List.countP_append]
      have h0 : db.transactions.countP (fun p => p.2.mpesa_receipt == receiptOf cd) = 0 :=
        List.countP_eq_zero.mpr (by intro p hp; simp [hall p hp])
      rw [h0]
      simp [hq1]
    | some pr =>
      obtain ⟨tid, t0⟩ := pr
      have hmem : (tid, t0) ∈ db.transactions := by
        unfold findTransactionByReference at hm
        by_cases hc : strTruthy (conversationIdOf cd)
        · rw [hc] at hm
          simp only [Bool.not_true, Bool.false_eq_true, if_false] at hm
          exact List.mem_of_find?_eq_some hm
        · rw [Bool.not_eq_true] at hc
          rw [hc] at hm
          simp at hm
      have hkey : (db.transactions.map (fun p => p.1)).count tid = 1 :=
        List.count_eq_one_of_mem hnodup (List.mem_map_of_mem (fun p => p.1) hmem)
      have htr : (saveCallbackTransaction db cd k1 n1).2.transactions =
          updateEntry db.transactions tid (fun t =>
            { t with
                status := if resultCodeOf cd = 0 then "SUCCESS" else "FAILED",
                mpesa_receipt := jsOrNull (receiptOf cd),
                phone_number := jsOrNull (phoneOf cd),
                result_code := some (resultCodeOf cd),
                result_desc := some (resultDescOf cd),
                timestamp := formatCallbackTimestamp
                  (jsStrD (jsOrS cd.TransactionDate cd.transactionDate) n1),
                raw_callback := some cd }) := by
        unfold saveCallbackTransaction
        simp only [hr, hex, hbill, hu, hm, Bool.and_false, Bool.false_eq_true, if_false,
          Bool.not_true]
        by_cases hs : ((if resultCodeOf cd = 0 then "SUCCESS" else "FAILED") == "SUCCESS") <;>
          simp [hs, applySuccessUserUpdate_transactions]
      rw [htr]
      apply countP_updateEntry_one tid _ _ _ db.transactions hall hkey
      intro x
      simp [hq1]
  have hdupl : transactionExists (saveCallbackTransaction db cd k1 n1).2 (receiptOf cd) = true := by
    unfold transactionExists
    rw [hr]
    simp only [Bool.not_true, Bool.false_eq_true, if_false]
    have hpos : 0 < ((saveCallbackTransaction db cd k1 n1).2.transactions.countP
        (fun p => p.2.mpesa_receipt == receiptOf cd)) := by
      unfold receiptCount at hcount
      rw [hcount]
      norm_num
    obtain ⟨p, hp, hq⟩ := List.countP_pos_iff.mp hpos
    exact List.any_eq_true.mpr ⟨p, hp, hq⟩
  refine ⟨hres1.1, hres1.2, hcount, ?_⟩
  conv_lhs => rw [saveCallbackTransaction]
  simp only [hr, hdupl, hbill, Bool.and_self, Bool.not_true, Bool.false_eq_true, if_false,
    Bool.true_and, if_true]

/-- Witness for C2 at a concrete two-delivery scenario. -/
theorem c2_amended_witness :
    receiptCount (saveCallbackTransaction c2Db c2Payload "k1" "n1").2 (receiptOf c2Payload) = 1 ∧
    saveCallbackTransaction (saveCallbackTransaction c2Db c2Payload "k1" "n1").2
        c2Payload "k2" "n2" =
      ({ success := true, duplicate := true, message := "Transaction already processed",
         transaction_id := none, status := none },
       (saveCallbackTransaction c2Db c2Payload "k1" "n1").2) := by
  have h := c2_amended_idempotent_with_null_duplicate_id c2Db c2Payload "k1" "k2" "n1" "n2"
    (by simp [c2Db]) (by decide) (by decide) (by decide) (by decide)
  exact ⟨h.2.2.1, h.2.2.2⟩

/-! ### Claim C3 -/

/-- C3: a callback whose conversation id matches an existing
transaction's reference (with its receipt not yet persisted, a present
bill reference and a known meter) updates that same transaction in
place — status, receipt, phone number, result code/description,
timestamp and raw payload — leaving the key list and the transaction
count unchanged, so no new transaction is created. -/
theorem c3_reference_match_updates_in_place (db : DB) (cd : CallbackData) (tid : String)
    (t : Transaction) (userId freshId now : String)
    (hdup : transactionExists db (receiptOf cd) = false)
    (hbill : strTruthy (billRefOf cd) = true)
    (huser : findUserIdByMeter db ((billRefOf cd).getD "") = some userId)
    (hmatch : findTransactionByReference db (conversationIdOf cd) = some (tid, t)) :
    (saveCallbackTransaction db cd freshId now).1.success = true ∧
    (saveCallbackTransaction db cd freshId now).1.duplicate = false ∧
    (saveCallbackTransaction db cd freshId now).1.transaction_id = some tid ∧
    (saveCallbackTransaction db cd freshId now).2.transactions =
      updateEntry db.transactions tid (fun old =>
        { old with
            status := if resultCodeOf cd = 0 then "SUCCESS" else "FAILED",
            mpesa_receipt := jsOrNull (receiptOf cd),
            phone_number := jsOrNull (phoneOf cd),
            result_code := some (resultCodeOf cd),
            result_desc := some (resultDescOf cd),
            timestamp := formatCallbackTimestamp
              (jsStrD (jsOrS cd.TransactionDate cd.transactionDate) now),
            raw_callback := some cd }) ∧
    (saveCallbackTransaction db cd freshId now).2.transactions.length =
      db.transactions.length ∧
    ((saveCallbackTransaction db cd freshId now).2.transactions.map (fun p => p.1)) =
      db.transactions.map (fun p => p.1) := by
  unfold saveCallbackTransaction
  simp only [hdup, hbill, hmatch, huser, Bool.and_false, Bool.false_eq_true, if_false,
    Bool.not_true]
  by_cases hs : ((if resultCodeOf cd = 0 then "SUCCESS" else "FAILED") == "SUCCESS")
  · simp [hs, applySuccessUserUpdate_transactions, updateEntry_length, updateEntry_map_fst]
  · simp [hs, updateEntry_length, updateEntry_map_fst]

def c3Db : DB :=
  { users := [("u3", { meter_no := "M3" })],
    transactions := [("t3",
      { transaction_id := some "t3", user_id := "u3", meter_no := "M3",
        amount := 100, units := some 4, status := "SUCCESS", reference := some "conv3" })] }

def c3Payload : CallbackData :=
  { ResultCode := some 0, MpesaReceiptNumber := some "R3", Amount := some 100,
    BillRefNumber := some "M3", PhoneNumber := some "254700000000",
    OriginatorCoversationID := some "conv3", TransactionDate := some "20250101120000" }

/-- Witness for C3: a callback matching reference conv3 updates the
matched transaction; the store still holds exactly the key t3. -/
theorem c3_reference_match_witness :
    (saveCallbackTransaction c3Db c3Payload "k3" "n3").1.transaction_id = some "t3" ∧
    (saveCallbackTransaction c3Db c3Payload "k3" "n3").2.transactions.length =
      c3Db.transactions.length ∧
    ((saveCallbackTransaction c3Db c3Payload "k3" "n3").2.transactions.map (fun p => p.1)) =
      c3Db.transactions.map (fun p => p.1) := by
  have h := c3_reference_match_updates_in_place c3Db c3Payload "t3"
    { transaction_id := some "t3", user_id := "u3", meter_no := "M3",
      amount := 100, units := some 4, status := "SUCCESS", reference := some "conv3" }
    "u3" "k3" "n3" (by decide) (by decide) (by decide) (by decide)
  exact ⟨h.2.2.1, h.2.2.2.2.1, h.2.2.2.2.2⟩

/-! ### Claim C4 -/

/-- C4: whenever the user's successful transactions total `U` units and
the consumption records total `C ≤ U` units, `calculateAvailableUnits`
returns `U - C` rounded to 2 decimal places. -/
theorem c4_balance_conservation (db : DB) (userId : String) (U C : ℚ)
    (hU : totalPurchasedUnits db userId = U)
    (hC : totalConsumedUnits db userId = C)
    (hle : C ≤ U) :
    calculateAvailableUnits db userId = toFixed2 (U - C) := by
  unfold calculateAvailableUnits
  rw [hU, hC, max_eq_right (sub_nonneg.mpr hle)]

def c4Db : DB :=
  { users := [("u4", { meter_no := "M4" })],
    transactions := [("t4",
      { transaction_id := some "t4", user_id := "u4", meter_no := "M4",
        amount := 125, units := some 5, status := "SUCCESS" })],
    consumption :=
      [("c1", { consumption_id := some "c1", user_id := "u4", units_consumed := 1/10,
                units_before := 5, units_after := 49/10 }),
       ("c2", { consumption_id := some "c2", user_id := "u4", units_consumed := 1/10,
                units_before := 49/10, units_after := 24/5 }),
       ("c3", { consumption_id := some "c3", user_id := "u4", units_consumed := 1/10,
                units_before := 24/5, units_after := 47/10 }),
       ("c4", { consumption_id := some "c4", user_id := "u4", units_consumed := 1/10,
                units_before := 47/10, units_after := 23/5 }),
       ("c5", { consumption_id := some "c5", user_id := "u4", units_consumed := 1/10,
                units_before := 23/5, units_after := 9/2 }),
       ("c6", { consumption_id := some "c6", user_id := "u4", units_consumed := 1/10,
                units_before := 9/2, units_after := 22/5 })] }

/-- Witness for C4: a user with one 5.00-unit successful transaction and
six 0.1-unit consumption ticks has 4.40 available units. -/
theorem c4_balance_conservation_witness :
    totalPurchasedUnits c4Db "u4" = 5 ∧ totalConsumedUnits c4Db "u4" = 3/5 ∧
    (3/5 : ℚ) ≤ 5 ∧ calculateAvailableUnits c4Db "u4" = 22/5 := by
  have hU : totalPurchasedUnits c4Db "u4" = 5 := by
    norm_num [totalPurchasedUnits, c4Db]
  have hC : totalConsumedUnits c4Db "u4" = 3/5 := by
    norm_num [totalConsumedUnits, c4Db]
  refine ⟨hU, hC, by norm_num, ?_⟩
  refine (c4_balance_conservation c4Db "u4" 5 (3/5) hU hC (by norm_num)).trans ?_
  norm_num [toFixed2, round_eq]

/-! ### Claim C5 -/

def c5Db : DB := { users := [("u5", { meter_no := "M5" })] }

/-- C5: `calculateUnits` equals the spec's `round(A / 25, 2)` for
nonnegative amounts and is monotone; a 125-amount transaction records
units 5.00 and remainder 0, a 110-amount one units 4.40 and remainder 10. -/
theorem c5_unit_conversion :
    (∀ a : ℚ, 0 ≤ a → calculateUnits a = spec_amount_to_units a) ∧
    (∀ a b : ℚ, 0 ≤ a → a ≤ b → calculateUnits a ≤ calculateUnits b) ∧
    ((createTransactionForMeter c5Db "M5" 125 "SUCCESS" none "k1" "ts1").map
      (fun p => (p.1.units, p.1.remainder))) = some (some 5, some 0) ∧
    ((createTransactionForMeter c5Db "M5" 110 "SUCCESS" none "k2" "ts2").map
      (fun p => (p.1.units, p.1.remainder))) = some (some (22/5), some 10) := by
  refine ⟨?_, ?_, ?_, ?_⟩
  case refine_3 =>
    norm_num [createTransactionForMeter, findUserIdByMeter, c5Db, calculateUnits,
      toFixed2, jsMod, jsTrunc, round_eq]
  case refine_4 =>
    norm_num [createTransactionForMeter, findUserIdByMeter, c5Db, calculateUnits,
      toFixed2, jsMod, jsTrunc, round_eq]
  · intro a _
    exact toFixed2_eq_spec_round2 (a / 25)
  · intro a b _ hab
    exact toFixed2_mono (by linarith)

/-- Witness for C5 at amounts 110 and 125. -/
theorem c5_unit_conversion_witness :
    (0 : ℚ) ≤ 110 ∧ calculateUnits 110 = spec_amount_to_units 110 ∧
    (110 : ℚ) ≤ 125 ∧ calculateUnits 110 ≤ calculateUnits 125 :=
  ⟨by norm_num, c5_unit_conversion.1 110 (by norm_num), by norm_num,
   c5_unit_conversion.2.1 110 125 (by norm_num) (by norm_num)⟩

/-! ### Claim C6 -/

def c6Db : DB :=
  { users := [("u6", { meter_no := "M6" })],
    transactions := [("t6",
      { transaction_id := some "t6", user_id := "u6", meter_no := "M6",
        amount := 125, units := some 5, status := "success" })] }

/-- Counterexample to C6: the code compares statuses by exact string
equality, so a lowercase "success" transaction contributes nothing,
while the claim's case-insensitive reading counts its 5 units. -/
theorem c6_counterexample_lowercase_status_ignored :
    calculateAvailableUnits c6Db "u6" = 0 ∧
    spec_availableUnitsCI c6Db "u6" = 5 ∧
    decide (calculateAvailableUnits c6Db "u6" = spec_availableUnitsCI c6Db "u6") = false := by
  have h1 : calculateAvailableUnits c6Db "u6" = 0 := by
    simp [calculateAvailableUnits, totalPurchasedUnits, totalConsumedUnits, c6Db, toFixed2]
  have h2 : spec_availableUnitsCI c6Db "u6" = 5 := by
    have e1 : spec_statusCountsCI "success" = true := by decide
    simp [spec_availableUnitsCI, spec_sumConsumedUnits, c6Db, e1, toFixed2]
    norm_num [round_eq]
  refine ⟨h1, h2, ?_⟩
  rw [h1, h2]
  rfl

/-- C6 (amended): `calculateAvailableUnits` is the sum of unit
quantities of the user's transactions whose status is exactly the
literal `SUCCESS` or exactly the legacy literal `completed` (no
case-insensitive tolerance), minus the sum of `units_consumed` over the
user's consumption records, clamped at zero and rounded to 2 decimals. -/
theorem c6_amended_exact_status_available_units (db : DB) (userId : String) :
    calculateAvailableUnits db userId =
      toFixed2 (max 0 (spec_sumSuccessUnits db userId - spec_sumConsumedUnits db userId)) := by
  unfold calculateAvailableUnits
  rw [totalPurchasedUnits_eq_spec, totalConsumedUnits_eq_spec]

/-! ### Claim C7 -/

/-- C7: the available-units computation is clamped at zero, so after any
sequence of purchases and consumption ticks — indeed in every store
state — it is nonnegative. -/
theorem c7_available_units_nonneg (db : DB) (userId : String) :
    0 ≤ calculateAvailableUnits db userId :=
  toFixed2_nonneg (le_max_left 0 _)

/-! ### Claim C8 -/

theorem toFixed2_tick_eq (a : ℚ) :
    toFixed2 (max 0 (a - min consumptionRate a)) =
      toFixed2 a - toFixed2 (min consumptionRate a) := by
  rcases le_total consumptionRate a with h | h
  · rw [min_eq_left h, max_eq_right (sub_nonneg.mpr h)]
    have hr : consumptionRate = 1 / 10 := rfl
    rw [hr, toFixed2_sub_rate]
    have h10 : toFixed2 (1 / 10 : ℚ) = 1 / 10 := by norm_num [toFixed2, round_eq]
    rw [h10]
  · rw [min_eq_right h]
    simp [toFixed2]

/-- C8 (amended): a consumption tick for a user with no available units
mutates nothing; with `a > 0` available it appends exactly one record
whose fields are the 2-decimal roundings of `min(rate, a)`, `a` and
their difference, satisfying `units_after = units_before -
units_consumed ≥ 0`, and caches `current_units = units_after`; the
recorded consumption never exceeds the rounded available units
`round2(a)` (though for `a < rate` it is `round2(a)`, which can differ
from — and slightly exceed — the claim's exact `min(rate, a)`). -/
theorem c8_amended_tick_rounded_consumption (db : DB) (userId freshId ts : String) (a : ℚ)
    (ha : svcCalculateAvailableUnits db userId = a) :
    (a ≤ 0 → consumeUnitsForUser db userId freshId ts = db) ∧
    (0 < a →
      (consumeUnitsForUser db userId freshId ts).consumption =
        db.consumption ++ [(freshId,
          { consumption_id := some freshId, user_id := userId,
            units_consumed := toFixed2 (min consumptionRate a),
            units_before := toFixed2 a,
            units_after := toFixed2 a - toFixed2 (min consumptionRate a),
            consumption_rate := some consumptionRate,
            timestamp := ts, type := some "automatic_consumption" })] ∧
      0 ≤ toFixed2 a - toFixed2 (min consumptionRate a) ∧
      toFixed2 (min consumptionRate a) ≤ toFixed2 a ∧
      (consumeUnitsForUser db userId freshId ts).users =
        updateEntry db.users userId (fun u =>
          { u with current_units := some (toFixed2 a - toFixed2 (min consumptionRate a)),
                   last_consumption_timestamp := some ts,
                   last_consumption_amount := some (toFixed2 (min consumptionRate a)) }) ∧
      (consumeUnitsForUser db userId freshId ts).transactions = db.transactions) := by
  subst ha
  constructor
  · intro hle
    unfold consumeUnitsForUser
    rw [if_pos hle]
  · intro hpos
    have hmono : toFixed2 (min consumptionRate (svcCalculateAvailableUnits db userId)) ≤
        toFixed2 (svcCalculateAvailableUnits db userId) :=
      toFixed2_mono (min_le_right _ _)
    unfold consumeUnitsForUser
    rw [if_neg (not_le.mpr hpos)]
    refine ⟨?_, sub_nonneg.mpr hmono, hmono, ?_, rfl⟩
    · simp only [toFixed2_tick_eq]
    · simp only [toFixed2_tick_eq]

def c8Db : DB :=
  { users := [("u8", { meter_no := "M8" })],
    transactions := [("t8",
      { transaction_id := some "t8", user_id := "u8", meter_no := "M8",
        amount := 12/100, units := some (processPaymentUnits (12/100)),
        status := "SUCCESS" })] }

/-- Counterexample to C8: a user holding the 0.006 units that
`processPayment` stores for a 0.12 payment gets a tick that records
`units_consumed = 0.01` — more than the 0.006 available and different
from `min(0.1, 0.006)` — because the record stores the 2-decimal
rounding of the consumed quantity. -/
theorem c8_counterexample_rounded_tick_exceeds_available :
    svcCalculateAvailableUnits c8Db "u8" = 6/1000 ∧
    ((consumeUnitsForUser c8Db "u8" "c1" "ts").consumption.map
      (fun p => p.2.units_consumed)) = [1/100] ∧
    decide ((1:ℚ)/100 ≤ 6/1000) = false ∧
    decide ((1:ℚ)/100 = min consumptionRate (6/1000)) = false := by
  have ha : svcCalculateAvailableUnits c8Db "u8" = 6/1000 := by
    norm_num [svcCalculateAvailableUnits, totalPurchasedUnits, totalConsumedUnits, c8Db,
      processPaymentUnits, round4, UNITS_PER_KES, round_eq]
  refine ⟨ha, ?_, ?_, ?_⟩
  · unfold consumeUnitsForUser
    rw [ha, if_neg (by norm_num)]
    have hmin : min consumptionRate (6/1000 : ℚ) = 6/1000 := by
      rw [min_eq_right]
      norm_num [consumptionRate]
    rw [hmin]
    have hfix : toFixed2 (6/1000 : ℚ) = 1/100 := by
      norm_num [toFixed2, round_eq]
    simp [hfix, c8Db]
  · exact decide_eq_false (by norm_num)
  · apply decide_eq_false
    rw [min_eq_right (by norm_num [consumptionRate])]
    norm_num

/-- Witness for C8 at the same store: the tick appends exactly the
record the amended theorem describes. -/
theorem c8_amended_tick_witness :
    (0:ℚ) < 6/1000 ∧
    (consumeUnitsForUser c8Db "u8" "c1" "ts").consumption =
      [("c1", { consumption_id := some "c1", user_id := "u8",
                units_consumed := toFixed2 (min consumptionRate (6/1000)),
                units_before := toFixed2 (6/1000),
                units_after := toFixed2 (6/1000) - toFixed2 (min consumptionRate (6/1000)),
                consumption_rate := some consumptionRate, timestamp := "ts",
                type := some "automatic_consumption" })] := by
  have ha : svcCalculateAvailableUnits c8Db "u8" = 6/1000 := by
    norm_num [svcCalculateAvailableUnits, totalPurchasedUnits, totalConsumedUnits, c8Db,
      processPaymentUnits, round4, UNITS_PER_KES, round_eq]
  refine ⟨by norm_num, ?_⟩
  have h := ((c8_amended_tick_rounded_consumption c8Db "u8" "c1" "ts" (6/1000) ha).2
    (by norm_num)).1
  simpa [c8Db] using h

/-! ### Claim C9 -/

/-- C9: a payload with none of the receipt fields
(`MpesaReceiptNumber`, `mpesaReceiptNumber`, `TransactionID`) is never
reported as a duplicate, and — when the bill reference resolves to a
user and no transaction matches the conversation id — each delivery
appends a fresh transaction instead. -/
theorem c9_missing_receipt_never_duplicate (db : DB) (cd : CallbackData) (freshId now : String)
    (h1 : cd.MpesaReceiptNumber = none) (h2 : cd.mpesaReceiptNumber = none)
    (h3 : cd.TransactionID = none) :
    (saveCallbackTransaction db cd freshId now).1.duplicate = false ∧
    (strTruthy (billRefOf cd) = true →
      (findUserIdByMeter db ((billRefOf cd).getD "")).isSome = true →
      findTransactionByReference db (conversationIdOf cd) = none →
      (saveCallbackTransaction db cd freshId now).2.transactions.length =
        db.transactions.length + 1) := by
  have hst : strTruthy (receiptOf cd) = false := by
    simp [receiptOf, h1, h2, h3, jsOrS, strTruthy]
  constructor
  · unfold saveCallbackTransaction
    simp only [hst, Bool.false_and, Bool.false_eq_true, if_false]
    by_cases hb : strTruthy (billRefOf cd)
    · simp only [hb, Bool.not_true, Bool.false_and, Bool.false_eq_true, if_false]
      cases hu : findUserIdByMeter db ((billRefOf cd).getD "") with
      | none => simp [hu]
      | some uid => simp [hu]
    · simp [hb]
  · intro hbill huser hm
    obtain ⟨uid, hu⟩ := Option.isSome_iff_exists.mp huser
    unfold saveCallbackTransaction
    simp only [hst, hbill, hm, hu, Bool.false_and, Bool.false_eq_true, if_false,
      Bool.not_true, Bool.true_and]
    by_cases hs : ((if resultCodeOf cd = 0 then "SUCCESS" else "FAILED") == "SUCCESS")
    · simp [hs, applySuccessUserUpdate_transactions]
    · simp [hs]

def c9Db : DB := { users := [("u9", { meter_no := "M9" })] }

def c9Payload : CallbackData := { Amount := some 50, BillRefNumber := some "M9" }

/-- Witness for C9: a receipt-less payload for meter M9. -/
theorem c9_missing_receipt_witness :
    c9Payload.MpesaReceiptNumber = none ∧
    strTruthy (billRefOf c9Payload) = true ∧
    (saveCallbackTransaction c9Db c9Payload "k9" "n9").1.duplicate = false ∧
    (saveCallbackTransaction c9Db c9Payload "k9" "n9").2.transactions.length =
      c9Db.transactions.length + 1 := by
  have h := c9_missing_receipt_never_duplicate c9Db c9Payload "k9" "n9" rfl rfl rfl
  exact ⟨rfl, by decide, h.1, h.2 (by decide) (by decide) (by decide)⟩

/-! ### Claim C10 -/

/-- C10: the device-driven `consumeUnits` persists
`max(0, round4(previous - units))` (never negative) while logging the
full requested `units` as consumed; when more units are requested than
the balance holds, the logged record violates
`units_after = units_before - units_consumed`. -/
theorem c10_device_consume_clamps_balance_but_logs_request (prevBalance : ℚ)
    (userId : Option String) (meterNo : String) (units : ℚ) (ts : String) :
    (consumeUnits prevBalance userId meterNo units ts).1 =
      max 0 (round4 (prevBalance - units)) ∧
    0 ≤ (consumeUnits prevBalance userId meterNo units ts).1 ∧
    (consumeUnits prevBalance userId meterNo units ts).2.units_consumed = units ∧
    (prevBalance < units →
      decide ((consumeUnits prevBalance userId meterNo units ts).2.units_after =
        (consumeUnits prevBalance userId meterNo units ts).2.units_before -
          (consumeUnits prevBalance userId meterNo units ts).2.units_consumed) = false) := by
  refine ⟨rfl, le_max_left 0 _, rfl, ?_⟩
  intro h
  apply decide_eq_false
  unfold consumeUnits
  simp only
  intro heq
  have h0 : (0 : ℚ) ≤ max 0 (round4 (prevBalance - units)) := le_max_left _ _
  rw [heq] at h0
  linarith

/-- Witness for C10 with a 2-unit request against a 1-unit balance. -/
theorem c10_device_consume_witness :
    (1 : ℚ) < 2 ∧
    (consumeUnits 1 none "M10" 2 "ts").1 = 0 ∧
    decide ((consumeUnits 1 none "M10" 2 "ts").2.units_after =
      (consumeUnits 1 none "M10" 2 "ts").2.units_before -
        (consumeUnits 1 none "M10" 2 "ts").2.units_consumed) = false :=
  ⟨by norm_num, by norm_num [consumeUnits, round4, round_eq],
   (c10_device_consume_clamps_balance_but_logs_request 1 none "M10" 2 "ts").2.2.2 (by norm_num)⟩

end TokenLoading
